import Mathlib

/-!
Verification development for the BracketOfDeathSite data-migration pipeline.

The repository's core is a pair of Node.js import scripts that normalize
historical tournament JSON exports into `players`, `tournaments` and
`tournamentresults` collections:

* `scripts/simple-data-import.js` (the "simple" variant, run by the
  data-init container; referred to below with the `Simple` suffix), and
* the older variant (function `importData`; referred to below with the
  `Import13` / `13` suffix).

Both are sequential, single-threaded batch programs, so they are embedded
here as pure state transformers over an explicit `DB` state (lists standing
for the MongoDB collections, in insertion order, plus a boolean for the
completion-marker file).  JavaScript-specific conventions used throughout:

* String-valued row fields are modelled as `JStr` (undefined / null /
  string) so that JS truthiness (`!x`) and strict equality (`===`) can be
  embedded exactly.
* Numeric row fields hold the already-parsed value of the corresponding
  `parseInt(raw) || 0` / `parseFloat(raw) || 0` expression.  Note these
  expressions can produce any integer (e.g. `parseInt("-5") || 0 = -5`);
  malformed or missing raw values produce `0`.
* JS numbers are modelled as `ℚ` where fractional values occur and as
  `Int` where the script only ever stores `parseInt` results.
* `MongoDB `findOne {name: n}` on a collection without a collation uses
  binary (case-sensitive) string comparison; no collation is configured
  anywhere in this repository, so lookups are embedded as exact string
  equality.
* String helpers (`split`, `trim`, `includes`, `toLowerCase`) are
  implemented below over `List Char` with structural recursion so that all
  definitions are executable by the kernel; they implement the JS
  semantics for the non-empty separators the scripts use.
* Console logging matters for one claim (which data appears in the
  fallback-insert failure logs), so the batch writers return their log
  lines; other logging is not modelled.
-/

namespace BOD

/-! ## JS string primitives (over `List Char`, structurally recursive) -/

/-- Strip a prefix of a character list: `dropPre pat cs` returns the rest of
`cs` after `pat` when `pat` is a prefix of `cs`. -/
def dropPre : List Char → List Char → Option (List Char)
  | [], rest => some rest
  | _ :: _, [] => none
  | p :: ps, c :: cs => if p = c then dropPre ps cs else none

/-- Fuel-driven worker for `jsSplit`; the fuel is always at least the length
of the remaining input, so the `0` case is unreachable for non-empty
separators. -/
def chSplitGo (sep : List Char) : Nat → List Char → List Char → List (List Char)
  | 0, _, acc => [acc.reverse]
  | _ + 1, [], acc => [acc.reverse]
  | fuel + 1, c :: cs, acc =>
    match dropPre sep (c :: cs) with
    | some rest => acc.reverse :: chSplitGo sep fuel rest []
    | none => chSplitGo sep fuel cs (c :: acc)

/-- JS `s.split(sep)` for a non-empty literal separator: leftmost-first,
non-overlapping matches. -/
def jsSplit (s sep : String) : List String :=
  (chSplitGo sep.data (s.data.length + 1) s.data []).map fun l => ⟨l⟩

/-- JS `s.includes(pat)` for non-empty `pat`: the split has at least two
parts exactly when the pattern occurs. -/
def jsIncludes (s pat : String) : Bool :=
  2 ≤ (jsSplit s pat).length

/-- JS `s.trim()` (whitespace stripped from both ends). -/
def jsTrim (s : String) : String :=
  ⟨((s.data.dropWhile Char.isWhitespace).reverse.dropWhile Char.isWhitespace).reverse⟩

/-- JS `s.toLowerCase()` (ASCII, which is all the scripts compare). -/
def jsToLower (s : String) : String :=
  ⟨s.data.map Char.toLower⟩

/-- Parse a non-empty all-digit string as a natural number (the shape taken
by the year and month components of the `YYYY-MM-DD` file names). -/
def jsToNat (s : String) : Option Nat :=
  if s.data ≠ [] ∧ s.data.all Char.isDigit then
    some (s.data.foldl (fun n c => n * 10 + (c.toNat - 48)) 0)
  else none

/-- JS `s.endsWith(suffix)`. -/
def jsEndsWith (s pat : String) : Bool :=
  decide (pat.data = (s.data.reverse.take pat.data.length).reverse)

/-! ## JS string-valued fields -/

/-- A JS value read from a JSON row at a string-valued key: the key may be
absent (`undef`), explicitly `null`, or a string. -/
inductive JStr where
  | undef
  | null
  | str (s : String)
deriving DecidableEq, Repr, Inhabited

/-- JS truthiness of a string-valued field (`undefined`, `null` and `""` are
falsy). -/
def JStr.truthy : JStr → Bool
  | .str s => s ≠ ""
  | _ => false

/-- JS strict equality `x === lit` against a string literal. -/
def JStr.eqS : JStr → String → Bool
  | .str s, t => s = t
  | _, _ => false

/-- Read the string out of a field, with a default for `undefined`/`null`
(used only where the scripts have already checked truthiness). -/
def JStr.getS : JStr → String
  | .str s => s
  | _ => ""

/-- JS `a || b` for a string-valued field against a string default. -/
def jsOrS (a : JStr) (b : String) : String :=
  if a.truthy then a.getS else b

/-! ## Stored documents and database state -/

/-- Stored `players` document.  Fields not referenced by any import logic or
claim (email, phone, city, state, createdAt, updatedAt, division, pairing,
drawingSequence) are omitted.  `bestResult` is stored as `ℚ` because the
older variant stores `Math.min(parseInt(...), parseFloat(...))`. -/
structure Player where
  name : String
  firstName : String
  lastName : String
  gamesPlayed : Int
  gamesWon : Int
  winningPercentage : ℚ
  bodsPlayed : Int
  bestResult : ℚ
  avgFinish : ℚ
  tournaments : Int
  individualChampionships : Int
  divisionChampionships : Int
  totalChampionships : Int
deriving DecidableEq, Repr, Inhabited

/-- Stored `tournaments` document (timestamps omitted). -/
structure Tournament where
  bodNumber : Nat
  dateStr : String
  format : String
  location : String
  advancementCriteria : String
  notes : String
  photoAlbums : Option String := none
deriving DecidableEq, Repr, Inhabited

/-- The `totalStats` sub-document of a stored tournament result. -/
structure TotalStats where
  totalWon : Int
  totalLost : Int
  totalPlayed : Int
  winPercentage : ℚ
  finalRank : ℚ
  bodFinish : Int
  home : Bool
deriving DecidableEq, Repr, Inhabited

/-- Stored `tournamentresults` document.  The Mongo `ObjectId` reference to
the tournament is modelled by the tournament's `bodNumber` (the natural key
the scripts resolve by); the player references are modelled by the resolved
players' stored names.  The `roundRobinScores` and `bracketScores`
sub-documents are copied from the source row exactly like `totalStats` and
are not referenced by any claim, so they are omitted. -/
structure TeamResult where
  tournamentBod : Nat
  players : List String
  division : String
  seed : Option Int
  totalStats : TotalStats
deriving DecidableEq, Repr, Inhabited

/-- The persistent state the scripts act on: the three collections (in
insertion order) and the completion-marker file (`/app/status/import-completed`,
modelled by a boolean). -/
structure DB where
  players : List Player
  tournaments : List Tournament
  results : List TeamResult
  marker : Bool
deriving DecidableEq, Repr, Inhabited

/-! ## Player rows and the two player-import phases -/

/-- One row of `All Players.json` after numeric parsing.  String-valued
fields keep their JS shape; each numeric field holds the value of the
`parseInt(row[key] || 0) || 0` (resp. `parseFloat`) expression the scripts
apply to it. -/
structure PlayerRow where
  name457 : JStr := .undef
  name : JStr := .undef
  gamesPlayed : Int := 0
  gamesWon : Int := 0
  winningPercentage : ℚ := 0
  bodsPlayed : Int := 0
  bestResult : Int := 0
  avgFinish : ℚ := 0
  tournaments : Int := 0
  indChamps : Int := 0
  divChamps : Int := 0
  champs : Int := 0
deriving DecidableEq, Repr, Inhabited

/-- `player['457 Unique Players'] || player.name || ''` — the prioritized
key fallback both scripts use to find the full name. -/
def fullNameOfRow (r : PlayerRow) : String :=
  jsOrS r.name457 (jsOrS r.name "")

/-- The skip test both scripts apply: `!fullName || fullName.trim() === ''`. -/
def badName (n : String) : Prop :=
  n = "" ∨ jsTrim n = ""

instance (n : String) : Decidable (badName n) := by
  unfold badName; infer_instance

/-- `fullName.trim().split(' ')[0] || ''`. -/
def firstNameOf (fullName : String) : String :=
  (jsSplit (jsTrim fullName) " ").headD ""

/-- `fullName.trim().split(' ').slice(1).join(' ') || ''`. -/
def lastNameOf (fullName : String) : String :=
  String.intercalate " " ((jsSplit (jsTrim fullName) " ").drop 1)

/-- Document built by the simple script for a new player
(`simple-data-import.js` lines 331–359): all counters are stored exactly as
parsed, with no clamping. -/
def cleanPlayerSimple (r : PlayerRow) (fullName : String) : Player :=
  { name := fullName
    firstName := firstNameOf fullName
    lastName := lastNameOf fullName
    gamesPlayed := r.gamesPlayed
    gamesWon := r.gamesWon
    winningPercentage := r.winningPercentage
    bodsPlayed := r.bodsPlayed
    bestResult := (r.bestResult : ℚ)
    avgFinish := r.avgFinish
    tournaments := r.tournaments
    individualChampionships := r.indChamps
    divisionChampionships := r.divChamps
    totalChampionships := r.champs }

/-- Document built by the older variant for a new player
(lines 70–122 of its `importPlayers`): `gamesWon` is clamped by
`Math.min(gamesWon, gamesPlayed)`, `bestResult` by
`Math.min(bestResult, avgFinish)` when both are positive, the raw winning
percentage is clamped into `[0,1]` by `Math.max(0, Math.min(1, ...))`, and
the stored percentage is `validGamesWon / gamesPlayed` when
`gamesPlayed > 0`. -/
def cleanPlayer13 (r : PlayerRow) (fullName : String) : Player :=
  let validGamesWon := min r.gamesWon r.gamesPlayed
  let validBestResult : ℚ :=
    if 0 < r.avgFinish ∧ 0 < r.bestResult then min (r.bestResult : ℚ) r.avgFinish
    else (r.bestResult : ℚ)
  let validWinningPercentage := max 0 (min 1 r.winningPercentage)
  { name := fullName
    firstName := firstNameOf fullName
    lastName := lastNameOf fullName
    gamesPlayed := r.gamesPlayed
    gamesWon := validGamesWon
    winningPercentage :=
      if 0 < r.gamesPlayed then (validGamesWon : ℚ) / (r.gamesPlayed : ℚ)
      else validWinningPercentage
    bodsPlayed := r.bodsPlayed
    bestResult := validBestResult
    avgFinish := r.avgFinish
    tournaments := r.tournaments
    individualChampionships := r.indChamps
    divisionChampionships := r.divChamps
    totalChampionships := r.champs }

/-- The player-collection loop shared by both scripts: skip rows with no
usable name, skip rows whose exact full name is already stored (the
existence check runs against the database only — the batch assembled so far
is not consulted — because the actual inserts happen after the loop), and
otherwise build a new document with the given `clean` function. -/
def collectNewPlayers (clean : PlayerRow → String → Player)
    (existing : List Player) : List PlayerRow → List Player
  | [] => []
  | r :: rs =>
    if badName (fullNameOfRow r) then collectNewPlayers clean existing rs
    else if existing.any fun p => p.name == fullNameOfRow r then
      collectNewPlayers clean existing rs
    else clean r (fullNameOfRow r) :: collectNewPlayers clean existing rs

/-- `importPlayers` of `simple-data-import.js`: collect the new documents,
then insert them after the loop. -/
def importPlayersSimple (rows : List PlayerRow) (db : DB) : DB :=
  { db with players := db.players ++ collectNewPlayers cleanPlayerSimple db.players rows }

/-- `importPlayers` of the older variant: identical control flow with the
clamped document builder. -/
def importPlayers13 (rows : List PlayerRow) (db : DB) : DB :=
  { db with players := db.players ++ collectNewPlayers cleanPlayer13 db.players rows }

/-! ## Tournament files: name parsing and row shapes -/

/-- Remove the first occurrence of `pat` from `s`
(JS `s.replace('.json', '')`, whose pattern argument is a plain string and
replaces only the first occurrence). -/
def removeFirst (s pat : String) : String :=
  match jsSplit s pat with
  | [] => s
  | [x] => x
  | x :: rest => x ++ String.intercalate pat rest

/-- `fileName.replace('.json', '').split(' ')`. -/
def fileBaseParts (fileName : String) : List String :=
  jsSplit (removeFirst fileName ".json") " "

/-- The `datePart` destructured from the file name. -/
def fileDatePart (fileName : String) : String :=
  (fileBaseParts fileName).headD ""

/-- The `formatPart` destructured from the file name (`undefined` when the
name has no space). -/
def fileFormatPart (fileName : String) : Option String :=
  (fileBaseParts fileName)[1]?

/-- Year and month of `new Date(s)` for an ISO-prefixed date string, with
`none` for an invalid date.  (The scripts run with a UTC clock, where
`getFullYear`/`getMonth` agree with the encoded components; non-ISO inputs
do not occur in the date-named files, which are pre-filtered by the
`^\d{4}-\d{2}-\d{2}` pattern.) -/
def jsDateYearMonth (s : String) : Option (Nat × Nat) :=
  match jsSplit s "-" with
  | y :: m :: _ =>
    match jsToNat y, jsToNat m with
    | some yn, some mn => if 1 ≤ mn ∧ mn ≤ 12 then some (yn, mn) else none
    | _, _ => none
  | _ => none

/-- `parseInt(year + zero-padded month)`: for a valid month (at most two
digits) the concatenation equals `year * 100 + month`. -/
def bodOfYearMonth (ym : Nat × Nat) : Nat :=
  ym.1 * 100 + ym.2

/-- The BOD number both scripts derive from a tournament file's name: the
four-digit year concatenated with the zero-padded two-digit month — a lossy
(day-dropping) encoding. -/
def fileBodNumber (fileName : String) : Nat :=
  bodOfYearMonth ((jsDateYearMonth (fileDatePart fileName)).getD (0, 0))

/-- The tournament-file filter both scripts apply to the data directory:
`.json` files other than the three aggregate files whose names start with a
`YYYY-MM-DD` date pattern. -/
def isTournamentFileName (n : String) : Bool :=
  jsEndsWith n ".json" && n != "All Players.json" && n != "All Scores.json" &&
    n != "Champions.json" &&
    (match n.data with
     | a :: b :: c :: d :: e :: f :: g :: h :: i :: j :: _ =>
       [a, b, c, d].all Char.isDigit && e = '-' && [f, g].all Char.isDigit &&
         h = '-' && [i, j].all Char.isDigit
     | _ => false)

/-- One row of a per-tournament file after numeric parsing.  String-valued
columns keep their JS shape (`date` is the `Date` column, `teamsRR` the
`Teams (Round Robin)` column); each numeric field holds the value of the
`parseInt(row[key]) || 0` (resp. `parseFloat`) expression applied to it.
The `Round-…`, `RR …`, `R16 …`, `QF …`, `SF …`, `Finals …` and `Bracket …`
columns are copied into the stored sub-documents the same way `totalStats`
is and are not referenced by any claim, so they are omitted. -/
structure TeamRow where
  date : JStr := .undef
  teamsRR : JStr := .undef
  player1 : JStr := .undef
  player2 : JStr := .undef
  division : JStr := .undef
  home : JStr := .undef
  seed : Int := 0
  rrWon : Int := 0
  rrLost : Int := 0
  rrPlayed : Int := 0
  totalWon : Int := 0
  totalLost : Int := 0
  totalPlayed : Int := 0
  winPct : ℚ := 0
  finalRank : ℚ := 0
  bodFinish : Int := 0
deriving DecidableEq, Repr, Inhabited

/-- A per-tournament source file: its name and its parsed JSON rows. -/
structure TFile where
  name : String
  rows : List TeamRow
deriving DecidableEq, Repr, Inhabited

/-! ## Simple-script tournament import -/

/-- Row filter of `simple-data-import.js` (lines 135–159): reject
summary/aggregate rows (missing team name, `"Tiebreakers"`, `Date` of
`"Home"` or literal `null`), accept new-format rows with both `Player 1`
and `Player 2`, and accept legacy rows whose team name splits on `' & '`
into exactly two parts. -/
def isValidTeamRowSimple (t : TeamRow) : Bool :=
  if !t.teamsRR.truthy || t.teamsRR.eqS "Tiebreakers" || t.date.eqS "Home" ||
      t.date == JStr.null then
    false
  else if t.player1.truthy && t.player2.truthy then true
  else if t.teamsRR.truthy then
    jsIncludes t.teamsRR.getS " & " && (jsSplit t.teamsRR.getS " & ").length == 2
  else false

/-- Player-name extraction of `simple-data-import.js` (lines 196–218):
prefer the explicit `Player 1`/`Player 2` columns; otherwise split the
legacy combined team name on `' & '`, trimming both parts, and reject
(`continue` with a logged warning) when it does not split into exactly two
parts. -/
def extractPlayersSimple (t : TeamRow) : Option (String × String) :=
  if t.player1.truthy && t.player2.truthy then
    some (t.player1.getS, t.player2.getS)
  else if t.teamsRR.truthy then
    let parts := jsSplit t.teamsRR.getS " & "
    if parts.length = 2 then
      some (jsTrim (parts.getD 0 ""), jsTrim (parts.getD 1 ""))
    else none
  else none

/-- The `totalStats` sub-document both scripts copy verbatim from the parsed
row (no repair or validation). -/
def mkTotalStats (row : TeamRow) : TotalStats :=
  { totalWon := row.totalWon
    totalLost := row.totalLost
    totalPlayed := row.totalPlayed
    winPercentage := row.winPct
    finalRank := row.finalRank
    bodFinish := row.bodFinish
    home := row.home.eqS "Home" }

/-- Resolve one valid row of a simple-script tournament file to a stored
result: extract the two names, look each up by exact stored name, and drop
the row (counted in `playersNotFound`) when either lookup fails. -/
def mkTeamResultSimple (players : List Player) (bod : Nat) (row : TeamRow) :
    Option TeamResult :=
  match extractPlayersSimple row with
  | none => none
  | some (n1, n2) =>
    match players.find? (fun p => p.name == n1), players.find? (fun p => p.name == n2) with
    | some p1, some p2 =>
      some { tournamentBod := bod
             players := [p1.name, p2.name]
             division := jsOrS row.division ""
             seed := if row.seed = 0 then none else some row.seed
             totalStats := mkTotalStats row }
    | _, _ => none

/-- Format token mapping of `simple-data-import.js` (lines 129–132). -/
def formatSimple : Option String → String
  | some "M" => "M"
  | some "W" => "W"
  | some "Mixed" => "Mixed"
  | _ => "Mixed"

/-- Tournament document built by the simple script for one file. -/
def mkTournamentSimple (f : TFile) : Tournament :=
  let datePart := fileDatePart f.name
  let fmt := formatSimple (fileFormatPart f.name)
  { bodNumber := fileBodNumber f.name
    dateStr := datePart
    format := fmt
    location := "Tournament Location"
    advancementCriteria := "Standard tournament advancement rules"
    notes := fmt ++ " tournament on " ++ datePart ++ " with " ++
      toString (f.rows.filter isValidTeamRowSimple).length ++ " teams" }

/-- `importTournamentFile` of `simple-data-import.js`: filter the rows,
bail out when none are valid, otherwise insert the tournament
unconditionally (the recreated collection has no unique index, so the
insert succeeds even for a colliding BOD number) and then the resolved
results. -/
def importTournamentFileSimple (db : DB) (f : TFile) : DB :=
  let bod := fileBodNumber f.name
  let validTeamData := f.rows.filter isValidTeamRowSimple
  if validTeamData.length = 0 then db
  else
    let teamResults := validTeamData.filterMap (mkTeamResultSimple db.players bod)
    { db with
      tournaments := db.tournaments ++ [mkTournamentSimple f]
      results := db.results ++ teamResults }

/-! ## Older-variant tournament import -/

/-- Row filter of the older variant (lines 226–234): only new-format rows —
truthy non-`"Home"` date, truthy team name other than `"Tiebreakers"`, and
both explicit player columns. -/
def isValidTeamRow13 (t : TeamRow) : Bool :=
  t.date.truthy && t.date != JStr.null && !t.date.eqS "Home" &&
    t.teamsRR.truthy && !t.teamsRR.eqS "Tiebreakers" &&
    t.player1.truthy && t.player2.truthy

/-- Net effect of the older variant's two-stage format normalization
(lines 204–251): token containing `Men` or equal to `M` → `M`, token
containing `Women` or equal to `W` → `W`, everything else → `Mixed`. -/
def format13 : Option String → String
  | none => "Mixed"
  | some s =>
    if jsIncludes s "Men" || s == "M" then "M"
    else if jsIncludes s "Women" || s == "W" then "W"
    else "Mixed"

/-- Tournament document built by the older variant for one file. -/
def mkTournament13 (f : TFile) : Tournament :=
  let datePart := fileDatePart f.name
  let fmt := format13 (fileFormatPart f.name)
  { bodNumber := fileBodNumber f.name
    dateStr := datePart
    format := fmt
    location := "Tournament Location"
    advancementCriteria := "Standard tournament advancement rules"
    notes := fmt ++ " tournament on " ++ datePart ++ " with " ++
      toString (f.rows.filter isValidTeamRow13).length ++ " teams" }

/-- Resolve one valid row of an older-variant tournament file: both player
columns are present (guaranteed by the filter); look both up by exact
stored name and drop the row when either is missing. -/
def mkTeamResult13 (players : List Player) (bod : Nat) (row : TeamRow) :
    Option TeamResult :=
  match players.find? (fun p => p.name == row.player1.getS),
      players.find? (fun p => p.name == row.player2.getS) with
  | some p1, some p2 =>
    some { tournamentBod := bod
           players := [p1.name, p2.name]
           division := jsOrS row.division ""
           seed := if 0 < row.seed then some row.seed else none
           totalStats := mkTotalStats row }
  | _, _ => none

/-- `importTournamentFile` of the older variant (lines 193–406): compute
the BOD number from the file name, **skip the whole file** when a
tournament with that number already exists, bail out when no rows are
valid, and otherwise insert the tournament followed by its resolved
results. -/
def importTournamentFile13 (db : DB) (f : TFile) : DB :=
  let bod := fileBodNumber f.name
  if db.tournaments.any fun t => t.bodNumber == bod then db
  else
    let validTeamData := f.rows.filter isValidTeamRow13
    if validTeamData.length = 0 then db
    else
      let results := validTeamData.filterMap (mkTeamResult13 db.players bod)
      { db with
        tournaments := db.tournaments ++ [mkTournament13 f]
        results := db.results ++ results }

/-- `importTournaments` of the older variant: process every matching file
of the data directory in order, each under its own try/catch. -/
def importTournaments13 (files : List TFile) (db : DB) : DB :=
  (files.filter fun f => isTournamentFileName f.name).foldl importTournamentFile13 db

/-! ## Champions metadata and All Scores phases (simple script only) -/

/-- One row of `Champions.json` (string-valued columns only; the phase
reads nothing else). -/
structure ChampRow where
  format : JStr := .undef
  date : JStr := .undef
  location : JStr := .undef
  advancementCriteria : JStr := .undef
  notes : JStr := .undef
  photoAlbums : JStr := .undef
deriving DecidableEq, Repr, Inhabited

/-- Champions-phase format normalization
(`format.toLowerCase().includes('men')` first — which a `Women…` label also
matches, exactly as in the source). -/
def champFormat (s : String) : String :=
  if jsIncludes (jsToLower s) "men" then "M"
  else if jsIncludes (jsToLower s) "women" then "W"
  else "Mixed"

/-- Apply one champions row's `$set` update to a tournament document. -/
def applyChampUpdate (t : Tournament) (c : ChampRow) : Tournament :=
  { t with
    location := if c.location.truthy then c.location.getS else t.location
    advancementCriteria :=
      if c.advancementCriteria.truthy then c.advancementCriteria.getS
      else t.advancementCriteria
    notes := if c.notes.truthy then c.notes.getS else t.notes
    photoAlbums := if c.photoAlbums.truthy then some c.photoAlbums.getS else t.photoAlbums }

/-- One iteration of `importChampions` (lines 412–442): skip summary rows
(falsy format, a parenthesis in the format, or a literal-null date), then
update the **first** tournament whose format matches (`findOne {format}`). -/
def importChampionsStep (db : DB) (c : ChampRow) : DB :=
  if !c.format.truthy || jsIncludes c.format.getS "(" || c.date == JStr.null then db
  else
    match (db.tournaments.findIdx? fun t => t.format == champFormat c.format.getS) with
    | none => db
    | some i =>
      { db with
        tournaments := db.tournaments.set i
          (applyChampUpdate (db.tournaments.getD i default) c) }

/-- `importChampions` of `simple-data-import.js`. -/
def importChampions (rows : List ChampRow) (db : DB) : DB :=
  rows.foldl importChampionsStep db

/-- One row of `All Scores.json` after numeric parsing (same conventions as
`TeamRow`; this file has explicit `Date`, `Format` and player columns). -/
structure ScoreRow where
  date : JStr := .undef
  format : JStr := .undef
  player1 : JStr := .undef
  player2 : JStr := .undef
  division : JStr := .undef
  division1 : JStr := .undef
  seed : Int := 0
  totalWon : Int := 0
  totalLost : Int := 0
  totalPlayed : Int := 0
  winPct : ℚ := 0
  finalRank : ℚ := 0
  bodFinish : Int := 0
deriving DecidableEq, Repr, Inhabited

/-- Record filter of `importAllScores` (lines 462–470): `Date`, `Player 1`
and `Player 2` present and the date parseable. -/
def scoreRowValid (r : ScoreRow) : Bool :=
  r.date.truthy && r.player1.truthy && r.player2.truthy &&
    (jsDateYearMonth r.date.getS).isSome

/-- BOD number of an All Scores row (same `YYYYMM` encoding). -/
def scoreBod (r : ScoreRow) : Nat :=
  bodOfYearMonth ((jsDateYearMonth r.date.getS).getD (0, 0))

/-- All Scores format normalization (again matching `men` first, so a
`Women…` label maps to `M` as in the source). -/
def scoreFormat (r : ScoreRow) : String :=
  match r.format with
  | .str s =>
    if jsIncludes (jsToLower s) "men" then "M"
    else if jsIncludes (jsToLower s) "women" then "W"
    else "Mixed"
  | _ => "Mixed"

/-- Tournament entry the All Scores phase creates for a BOD number on first
sight. -/
def scoreTournament (r : ScoreRow) : Tournament :=
  { bodNumber := scoreBod r
    dateStr := r.date.getS
    format := scoreFormat r
    location := "Tournament Location"
    advancementCriteria := "Standard tournament advancement rules"
    notes := scoreFormat r ++ " tournament with consolidated scores data" }

/-- The `newTournaments` map (keyed by BOD number, first row wins,
iteration in insertion order). -/
def collectScoreTournaments (rows : List ScoreRow) : List Tournament :=
  rows.foldl
    (fun acc r =>
      if scoreRowValid r then
        if acc.any fun t => t.bodNumber == scoreBod r then acc
        else acc ++ [scoreTournament r]
      else acc)
    []

/-- The team results assembled from valid All Scores rows whose two players
resolve (rows with an unresolved player are dropped). -/
def collectScoreResults (players : List Player) (rows : List ScoreRow) :
    List TeamResult :=
  rows.filterMap fun r =>
    if !scoreRowValid r then none
    else
      match players.find? (fun p => p.name == r.player1.getS),
          players.find? (fun p => p.name == r.player2.getS) with
      | some p1, some p2 =>
        some { tournamentBod := scoreBod r
               players := [p1.name, p2.name]
               division := jsOrS r.division (jsOrS r.division1 "")
               seed := if r.seed = 0 then none else some r.seed
               totalStats :=
                 { totalWon := r.totalWon
                   totalLost := r.totalLost
                   totalPlayed := r.totalPlayed
                   winPercentage := r.winPct
                   finalRank := r.finalRank
                   bodFinish := r.bodFinish
                   home := false } }
      | _, _ => none

/-- Per-result duplicate check of the All Scores phase:
`findOne {tournamentId, players: {$all: …}}` before each insert (so the
check sees results inserted earlier in the same loop). -/
def insertScoreResult (results : List TeamResult) (tr : TeamResult) : List TeamResult :=
  if results.any (fun ex =>
      ex.tournamentBod == tr.tournamentBod &&
        tr.players.all fun p => ex.players.contains p) then
    results
  else results ++ [tr]

/-- `importAllScores` of `simple-data-import.js` (lines 447–597): build the
tournament map and the result list, insert the tournaments whose BOD
numbers are new, attach tournament references (results whose BOD number
matches no tournament are dropped), and insert the results one at a time
with the duplicate check. -/
def importAllScores (rows : List ScoreRow) (db : DB) : DB :=
  let newTs := collectScoreTournaments rows
  let allResults := collectScoreResults db.players rows
  let existingBods := db.tournaments.map Tournament.bodNumber
  let toInsert := newTs.filter fun t => !existingBods.contains t.bodNumber
  let db1 : DB := { db with tournaments := db.tournaments ++ toInsert }
  let validResults := allResults.filter fun tr =>
    db1.tournaments.any fun t => t.bodNumber == tr.tournamentBod
  { db1 with results := validResults.foldl insertScoreResult db1.results }

/-! ## The two top-level pipelines -/

/-- Input of one run of the simple script: the parsed aggregate files and
the per-tournament files found in the data directory. -/
structure SimpleInput where
  playerRows : List PlayerRow
  champRows : List ChampRow
  scoreRows : List ScoreRow
  tournamentFiles : List TFile
deriving Repr, Inhabited

/-- Input of one run of the older variant (it reads only `All Players.json`
and the per-tournament files). -/
structure Import13Input where
  playerRows : List PlayerRow
  tournamentFiles : List TFile
deriving Repr, Inhabited

/-- The `drop()`/`createCollection()` step of `simpleImport` (lines 34–42):
the `tournaments` and `tournamentresults` collections are dropped and
recreated without schema validation; `players` is untouched. -/
def clearTournamentCollections (db : DB) : DB :=
  { db with tournaments := [], results := [] }

/-- `simpleImport` of `simple-data-import.js`: return immediately when the
completion marker exists; otherwise drop and recreate the tournament
collections, run the four import phases in order, and finally write the
completion marker. -/
def simpleImport (input : SimpleInput) (db : DB) : DB :=
  if db.marker then db
  else
    let db1 := clearTournamentCollections db
    let db2 := importPlayersSimple input.playerRows db1
    let db3 := importChampions input.champRows db2
    let db4 := importAllScores input.scoreRows db3
    let db5 := (input.tournamentFiles.filter fun f =>
      isTournamentFileName f.name).foldl importTournamentFileSimple db4
    { db5 with marker := true }

/-- `importData` of the older variant: import players, then tournaments and
results (each phase skipping documents that already exist), and finally
write the completion marker.  Note this variant performs **no** marker
check of its own. -/
def importData13 (input : Import13Input) (db : DB) : DB :=
  let db1 := importPlayers13 input.playerRows db
  let db2 := importTournaments13 input.tournamentFiles db1
  { db2 with marker := true }

/-! ## REST-controller helpers referenced by the claims -/

/-- `calculateConsistencyScore` of `PlayerController`
(`dist/controllers/PlayerController.js` lines 198–208): returns `0` when
`bestResult` or `avgFinish` is falsy (unset or zero), and otherwise clamps
`1 - (bestResult/avgFinish - 1)` into `[0,1]`.  The two number-or-unset
arguments are modelled as `Option ℚ`. -/
def calculateConsistencyScore (bestResult avgFinish : Option ℚ) : ℚ :=
  if bestResult.getD 0 = 0 ∨ avgFinish.getD 0 = 0 then 0
  else
    let ratio := bestResult.getD 0 / avgFinish.getD 0
    max 0 (min 1 (1 - (ratio - 1)))

/-- `validateTournamentResultData` of `TournamentResultController`
(`TournamentResultController.ts` lines 591–620), over an optional
`totalStats` and an optional players array (only its length is read). -/
def validateTournamentResultData (stats : Option TotalStats)
    (playerCount : Option Nat) : List String :=
  (match stats with
   | some s =>
     (if s.totalWon + s.totalLost ≠ s.totalPlayed then
        ["Total games played must equal total won plus total lost"] else []) ++
     (if s.totalPlayed < s.totalWon then
        ["Total games won cannot exceed total games played"] else []) ++
     (if s.totalPlayed < s.totalLost then
        ["Total games lost cannot exceed total games played"] else []) ++
     (if s.winPercentage < 0 ∨ 1 < s.winPercentage then
        ["Win percentage must be between 0 and 1"] else [])
   | none => []) ++
  (match playerCount with
   | some n => if n < 1 ∨ 2 < n then ["A team must have 1 or 2 players"] else []
   | none => [])

/-! ## Batch writers (bulk insert with per-record fallback) -/

/-- A MongoDB driver error (code 121 is a document-validation failure). -/
structure MongoErr where
  code : Int
  message : String
deriving DecidableEq, Repr, Inhabited

/-- Outcome of `insertMany` given the per-record outcomes: inserted count on
success, or the first record's error. -/
def bulkOutcome (outcome : α → Except MongoErr Unit) : List α → Except MongoErr Nat
  | [] => .ok 0
  | r :: rs =>
    match outcome r with
    | .error e => .error e
    | .ok _ => (bulkOutcome outcome rs).map (· + 1)

/-- The per-record fallback loop shared by the writers: insert one record at
a time, count successes and failures, and emit one log line per failure
(`logLine` is each call site's `console.log` format).  Every per-record
error is caught here; nothing is rethrown. -/
def fallbackLoop (outcome : α → Except MongoErr Unit)
    (logLine : α → MongoErr → String) : List α → Nat × Nat × List String
  | [] => (0, 0, [])
  | r :: rs =>
    let rest := fallbackLoop outcome logLine rs
    match outcome r with
    | .ok _ => (rest.1 + 1, rest.2.1, rest.2.2)
    | .error e => (rest.1, rest.2.1 + 1, logLine r e :: rest.2.2)

/-- Failure log line of the older variant's player fallback
(`Failed to insert player: ${player.name} - ${insertError.message}`). -/
def logPlayer13 (p : Player) (e : MongoErr) : String :=
  "Failed to insert player: " ++ p.name ++ " - " ++ e.message

/-- Failure log line of the simple script's result fallback
(`    Failed individual insert: ${e.message}`). -/
def logResultSimple (_ : TeamResult) (e : MongoErr) : String :=
  "    Failed individual insert: " ++ e.message

/-- Player batch write of the older variant (lines 127–152): try
`insertMany`; on a code-121 validation failure fall back to per-record
inserts; rethrow any other bulk error. -/
def writePlayersBatch13 (outcome : Player → Except MongoErr Unit)
    (records : List Player) : Except MongoErr (Nat × Nat × List String) :=
  match bulkOutcome outcome records with
  | .ok n => .ok (n, 0, [])
  | .error e =>
    if e.code = 121 then .ok (fallbackLoop outcome logPlayer13 records)
    else .error e

/-- Result batch write of `simple-data-import.js` (lines 280–298): try
`insertMany`; on **any** failure fall back to per-record inserts; nothing
is ever rethrown. -/
def writeResultsBatchSimple (outcome : TeamResult → Except MongoErr Unit)
    (records : List TeamResult) : Nat × Nat × List String :=
  match bulkOutcome outcome records with
  | .ok n => (n, 0, [])
  | .error _ => fallbackLoop outcome logResultSimple records

/-! ## Concrete inputs used by counterexamples and witnesses -/

/-- A stored player with the given names and zeroed counters. -/
def mkNamedPlayer (n fn ln : String) : Player :=
  { name := n, firstName := fn, lastName := ln, gamesPlayed := 0, gamesWon := 0,
    winningPercentage := 0, bodsPlayed := 0, bestResult := 0, avgFinish := 0,
    tournaments := 0, individualChampionships := 0, divisionChampionships := 0,
    totalChampionships := 0 }

/-- Stored player `Jane Doe`. -/
def pJane : Player := mkNamedPlayer "Jane Doe" "Jane" "Doe"

/-- Stored player `John Smith`. -/
def pJohn : Player := mkNamedPlayer "John Smith" "John" "Smith"

/-- An empty database, marker absent. -/
def emptyDB : DB := { players := [], tournaments := [], results := [], marker := false }

/-- A database holding only `Jane Doe`, marker absent. -/
def dbJane : DB := { players := [pJane], tournaments := [], results := [], marker := false }

/-- Legacy-format row whose team name uses the `' & '` delimiter. -/
def rowLegacyAmp : TeamRow :=
  { date := .str "2009-07-11", teamsRR := .str "Jane Doe & John Smith" }

/-- Legacy-format row whose team name uses a comma instead of `' & '`. -/
def rowLegacyComma : TeamRow :=
  { date := .str "2009-07-11", teamsRR := .str "Jane Doe, John Smith" }

/-- Legacy-format row whose team name splits into three parts. -/
def rowLegacyTriple : TeamRow :=
  { date := .str "2009-07-11", teamsRR := .str "Al A & Bo B & Cy C" }

/-! ## C3 — team-name splitting -/

/-- C3: for legacy-format rows the combined team name is split on the
literal `' & '`; `"Jane Doe & John Smith"` yields exactly
`("Jane Doe", "John Smith")`, `"Jane Doe, John Smith"` is rejected both by
the row filter and by the extraction step, and in general a legacy row is
extracted exactly when its team name splits into exactly two parts
(each part trimmed), and rejected otherwise — never mis-split. -/
theorem teamNameSplitting :
    extractPlayersSimple rowLegacyAmp = some ("Jane Doe", "John Smith") ∧
    extractPlayersSimple rowLegacyComma = none ∧
    isValidTeamRowSimple rowLegacyComma = false ∧
    ∀ (t : TeamRow) (s : String),
      (t.player1.truthy && t.player2.truthy) = false →
      t.teamsRR = JStr.str s → s ≠ "" →
      ((jsSplit s " & ").length = 2 →
        extractPlayersSimple t =
          some (jsTrim ((jsSplit s " & ").getD 0 ""),
                jsTrim ((jsSplit s " & ").getD 1 ""))) ∧
      ((jsSplit s " & ").length ≠ 2 → extractPlayersSimple t = none) := by
  refine ⟨by decide, by decide, by decide, ?_⟩
  intro t s hp ht hs
  constructor
  · intro h2
    unfold extractPlayersSimple
    rw [hp]
    simp [ht, JStr.truthy, JStr.getS, hs, h2]
  · intro h2
    unfold extractPlayersSimple
    rw [hp]
    simp [ht, JStr.truthy, JStr.getS, hs, h2]

/-- Witness for C3's universal part: a three-way team name is rejected. -/
theorem teamNameSplittingWitness : extractPlayersSimple rowLegacyTriple = none :=
  (teamNameSplitting.2.2.2 rowLegacyTriple "Al A & Bo B & Cy C" (by decide) rfl
    (by decide)).2 (by decide)

/-! ## C6 / C10 — consistency score -/

/-- C6 counterexample: at `bestResult = 0`, `avgFinish = 5` (so `avgFinish`
is neither zero nor unset) the function returns `0`, while the claimed
formula `max(0, min(1, 1 - (bestResult/avgFinish - 1)))` evaluates to `1`. -/
theorem consistencyScoreFormulaCounterexample :
    calculateConsistencyScore (some 0) (some 5) = 0 ∧
    max (0 : ℚ) (min 1 (1 - ((0 : ℚ) / 5 - 1))) = 1 := by
  constructor
  · simp [calculateConsistencyScore]
  · norm_num

/-- C6 amended: the score equals
`max(0, min(1, 1 - (bestResult/avgFinish - 1)))` whenever `bestResult` and
`avgFinish` are both set and nonzero; it is `0` when `avgFinish` is zero or
unset **and also** when `bestResult` is zero or unset. -/
theorem consistencyScoreFormulaAmended :
    (∀ b a : ℚ, b ≠ 0 → a ≠ 0 →
      calculateConsistencyScore (some b) (some a) =
        max 0 (min 1 (1 - (b / a - 1)))) ∧
    (∀ x : Option ℚ,
      calculateConsistencyScore none x = 0 ∧
      calculateConsistencyScore (some 0) x = 0 ∧
      calculateConsistencyScore x none = 0 ∧
      calculateConsistencyScore x (some 0) = 0) := by
  constructor
  · intro b a hb ha
    simp [calculateConsistencyScore, hb, ha]
  · intro x
    refine ⟨by simp [calculateConsistencyScore], by simp [calculateConsistencyScore],
      ?_, ?_⟩ <;> simp [calculateConsistencyScore]

/-- Witness for C6's amended formula at `bestResult = 3`, `avgFinish = 2`. -/
theorem consistencyScoreFormulaAmendedWitness :
    calculateConsistencyScore (some 3) (some 2) =
      max 0 (min 1 (1 - ((3 : ℚ) / 2 - 1))) :=
  consistencyScoreFormulaAmended.1 3 2 (by norm_num) (by norm_num)

/-- C10: whenever `bestResult` and `avgFinish` are both positive and satisfy
the Player invariant `bestResult ≤ avgFinish`, the consistency score is
exactly `1`; and it is `0` whenever `bestResult` is zero or unset, not only
when `avgFinish` is. -/
theorem consistencyScoreBounds :
    (∀ b a : ℚ, 0 < b → 0 < a → b ≤ a →
      calculateConsistencyScore (some b) (some a) = 1) ∧
    (∀ x : Option ℚ,
      calculateConsistencyScore none x = 0 ∧
      calculateConsistencyScore (some 0) x = 0) := by
  constructor
  · intro b a hb ha hba
    have hratio : b / a ≤ 1 := (div_le_one ha).mpr hba
    have h1 : (1 : ℚ) ≤ 1 - (b / a - 1) := by linarith
    have hg : ¬(b = 0 ∨ a = 0) := by
      push_neg
      exact ⟨hb.ne', ha.ne'⟩
    simp only [calculateConsistencyScore, Option.getD_some, if_neg hg]
    rw [min_eq_left h1, max_eq_right (by norm_num : (0 : ℚ) ≤ 1)]
  · intro x
    exact ⟨by simp [calculateConsistencyScore], by simp [calculateConsistencyScore]⟩

/-- Witness for C10 at `bestResult = 2`, `avgFinish = 3` (and at the zero
case). -/
theorem consistencyScoreBoundsWitness :
    calculateConsistencyScore (some 2) (some 3) = 1 ∧
    calculateConsistencyScore none (some 3) = 0 :=
  ⟨consistencyScoreBounds.1 2 3 (by norm_num) (by norm_num) (by norm_num),
    (consistencyScoreBounds.2 (some 3)).1⟩

/-! ## C2 — totalStats invariants of stored results -/

/-- A source row whose parsed totals are inconsistent (`Total Won` 1,
`Total Lost` 0, `Total Played` 0) and whose `Win %` parses to `2`. -/
def rowBadTotals : TeamRow :=
  { date := .str "2024-03-01", teamsRR := .str "Jane Doe & John Smith",
    player1 := .str "Jane Doe", player2 := .str "John Smith",
    totalWon := 1, totalLost := 0, totalPlayed := 0, winPct := 2 }

/-- Database containing the two players of `rowBadTotals`. -/
def dbJaneJohn : DB :=
  { players := [pJane, pJohn], tournaments := [], results := [], marker := false }

/-- Tournament file carrying the inconsistent row. -/
def fileBadTotals : TFile := { name := "2024-03-01 M.json", rows := [rowBadTotals] }

/-- C2 counterexample: the pipeline copies `totalStats` verbatim from the
parsed row, so importing `fileBadTotals` stores a TournamentResult with
`totalWon + totalLost ≠ totalPlayed` and `winPercentage > 1`. -/
theorem storedTotalStatsCounterexample :
    (importTournamentFileSimple dbJaneJohn fileBadTotals).results.length = 1 ∧
    ((importTournamentFileSimple dbJaneJohn fileBadTotals).results.getD 0
        default).totalStats.totalWon +
      ((importTournamentFileSimple dbJaneJohn fileBadTotals).results.getD 0
        default).totalStats.totalLost ≠
      ((importTournamentFileSimple dbJaneJohn fileBadTotals).results.getD 0
        default).totalStats.totalPlayed ∧
    1 < ((importTournamentFileSimple dbJaneJohn fileBadTotals).results.getD 0
        default).totalStats.winPercentage := by
  refine ⟨by decide, by decide, by decide⟩

/-- C2 amended: the additive and percentage invariants are enforced only by
the controller's `validateTournamentResultData` (which returns no errors
exactly when they hold); the import pipeline itself copies `totalStats`
verbatim from the parsed source row, so a stored result satisfies the
invariants iff its source row's parsed values do. -/
theorem storedTotalStatsAmended :
    (∀ (s : TotalStats) (n : Nat),
      validateTournamentResultData (some s) (some n) = [] ↔
        (s.totalWon + s.totalLost = s.totalPlayed ∧ s.totalWon ≤ s.totalPlayed ∧
         s.totalLost ≤ s.totalPlayed ∧ 0 ≤ s.winPercentage ∧ s.winPercentage ≤ 1 ∧
         1 ≤ n ∧ n ≤ 2)) ∧
    (∀ (db : DB) (f : TFile) (r : TeamResult),
      r ∈ (importTournamentFileSimple db f).results →
      r ∈ db.results ∨ ∃ row ∈ f.rows, r.totalStats = mkTotalStats row) := by
  constructor
  · intro s n
    simp only [validateTournamentResultData, List.append_eq_nil, ite_eq_right_iff,
      List.cons_ne_nil, imp_false, not_or, not_lt, ne_eq, not_not]
    tauto
  · intro db f r hr
    unfold importTournamentFileSimple at hr
    by_cases hlen : (f.rows.filter isValidTeamRowSimple).length = 0
    · simp only [hlen, if_pos] at hr
      exact Or.inl (by simpa using hr)
    · simp only [if_neg hlen] at hr
      rcases List.mem_append.mp hr with hold | hnew
      · exact Or.inl hold
      · right
        rcases List.mem_filterMap.mp hnew with ⟨row, hrow, hmk⟩
        refine ⟨row, (List.mem_filter.mp hrow).1, ?_⟩
        unfold mkTeamResultSimple at hmk
        split at hmk
        · cases hmk
        · split at hmk
          · injection hmk with hmk
            rw [← hmk]
          · cases hmk

/-- Witness for C2's amended claim: a consistent row passes validation and
a concrete stored result's stats trace to their source row. -/
theorem storedTotalStatsAmendedWitness :
    validateTournamentResultData
      (some { totalWon := 6, totalLost := 2, totalPlayed := 8, winPercentage := 1,
              finalRank := 0, bodFinish := 1, home := false }) (some 2) = [] :=
  (storedTotalStatsAmended.1 _ 2).mpr
    ⟨by decide, by decide, by decide, by decide, by decide, by decide, by decide⟩

/-! ## C4 — BOD-number collision between same-month files -/

/-- A valid new-format row for the older variant's filter. -/
def rowMarch1 : TeamRow :=
  { date := .str "2024-03-01", teamsRR := .str "Jane Doe & John Smith",
    player1 := .str "Jane Doe", player2 := .str "John Smith",
    totalWon := 6, totalLost := 2, totalPlayed := 8, bodFinish := 1 }

/-- A valid new-format row appearing in the second same-month file. -/
def rowMarch15 : TeamRow :=
  { date := .str "2024-03-15", teamsRR := .str "Jane Doe & John Smith",
    player1 := .str "Jane Doe", player2 := .str "John Smith",
    totalWon := 4, totalLost := 4, totalPlayed := 8, bodFinish := 3 }

/-- First March-2024 file. -/
def fileMarch1 : TFile := { name := "2024-03-01 M.json", rows := [rowMarch1] }

/-- Second March-2024 file (same year and month, different day). -/
def fileMarch15 : TFile := { name := "2024-03-15 M.json", rows := [rowMarch15] }

/-- C4: both same-month file names compute the identifying number `202403`;
a file whose BOD number already has a tournament is skipped entirely by the
older variant's `importTournamentFile` (state unchanged, no rows
processed); concretely, after importing `2024-03-01 M.json`, importing
`2024-03-15 M.json` changes nothing — even though on its own that file
would store a team result. -/
theorem bodNumberCollision :
    fileBodNumber "2024-03-01 M.json" = 202403 ∧
    fileBodNumber "2024-03-15 M.json" = 202403 ∧
    (∀ (db : DB) (f : TFile),
      (db.tournaments.any fun t => t.bodNumber == fileBodNumber f.name) = true →
      importTournamentFile13 db f = db) ∧
    importTournamentFile13 (importTournamentFile13 dbJaneJohn fileMarch1) fileMarch15 =
      importTournamentFile13 dbJaneJohn fileMarch1 ∧
    (importTournamentFile13 dbJaneJohn fileMarch15).results.length = 1 := by
  refine ⟨by decide, by decide, ?_, by decide, by decide⟩
  intro db f h
  simp [importTournamentFile13, h]

/-- Database already holding a tournament numbered 202403. -/
def dbWith202403 : DB :=
  { players := [], tournaments := [mkTournament13 fileMarch1], results := [],
    marker := false }

/-- Witness for C4's universal part: with a 202403 tournament stored, the
second March file is a no-op. -/
theorem bodNumberCollisionWitness :
    importTournamentFile13 dbWith202403 fileMarch15 = dbWith202403 :=
  bodNumberCollision.2.2.1 dbWith202403 fileMarch15 (by decide)

/-! ## Shared lemmas about the player-collection loop -/

/-- Every document produced by the collection loop comes from some input
row via the `clean` builder. -/
lemma collectNewPlayers_mem {clean : PlayerRow → String → Player}
    {existing : List Player} {rows : List PlayerRow} {p : Player}
    (hp : p ∈ collectNewPlayers clean existing rows) :
    ∃ r ∈ rows, p = clean r (fullNameOfRow r) := by
  induction rows with
  | nil => cases hp
  | cons r rs ih =>
    unfold collectNewPlayers at hp
    split_ifs at hp with h1 h2
    · obtain ⟨q, hq, he⟩ := ih hp
      exact ⟨q, List.mem_cons_of_mem _ hq, he⟩
    · obtain ⟨q, hq, he⟩ := ih hp
      exact ⟨q, List.mem_cons_of_mem _ hq, he⟩
    · rcases List.mem_cons.mp hp with heq | hmem
      · exact ⟨r, List.mem_cons_self _ _, heq⟩
      · obtain ⟨q, hq, he⟩ := ih hmem
        exact ⟨q, List.mem_cons_of_mem _ hq, he⟩

/-- If every usable row name is already stored, the collection loop
produces nothing. -/
lemma collectNewPlayers_eq_nil {clean : PlayerRow → String → Player}
    {existing : List Player} {rows : List PlayerRow}
    (h : ∀ r ∈ rows, ¬ badName (fullNameOfRow r) →
      ∃ p ∈ existing, p.name = fullNameOfRow r) :
    collectNewPlayers clean existing rows = [] := by
  induction rows with
  | nil => rfl
  | cons r rs ih =>
    unfold collectNewPlayers
    by_cases h1 : badName (fullNameOfRow r)
    · rw [if_pos h1]
      exact ih fun q hq => h q (List.mem_cons_of_mem _ hq)
    · rw [if_neg h1]
      obtain ⟨p, hp, hn⟩ := h r (List.mem_cons_self _ _) h1
      rw [if_pos (List.any_eq_true.mpr ⟨p, hp, by simp [hn]⟩)]
      exact ih fun q hq => h q (List.mem_cons_of_mem _ hq)

/-- After one pass, every usable row name is present among the stored
players (either it was there already or the pass created it), provided the
builder stores the name it is given. -/
lemma collectNewPlayers_covers (clean : PlayerRow → String → Player)
    (hc : ∀ r n, (clean r n).name = n) (existing : List Player)
    (rows : List PlayerRow) :
    ∀ r ∈ rows, ¬ badName (fullNameOfRow r) →
      ∃ p ∈ existing ++ collectNewPlayers clean existing rows,
        p.name = fullNameOfRow r := by
  induction rows with
  | nil => intro r hr; cases hr
  | cons r rs ih =>
    intro q hq hgood
    have hsup : ∀ p, p ∈ collectNewPlayers clean existing rs →
        p ∈ collectNewPlayers clean existing (r :: rs) := by
      intro p hp
      unfold collectNewPlayers
      split_ifs with h1 h2
      · exact hp
      · exact hp
      · exact List.mem_cons_of_mem _ hp
    rcases List.mem_cons.mp hq with heq | hq
    · rw [heq] at hgood ⊢
      by_cases h2 : (existing.any fun p => p.name == fullNameOfRow r) = true
      · obtain ⟨p, hp, hn⟩ := List.any_eq_true.mp h2
        exact ⟨p, List.mem_append_left _ hp, by simpa using hn⟩
      · refine ⟨clean r (fullNameOfRow r), List.mem_append_right _ ?_, hc _ _⟩
        unfold collectNewPlayers
        rw [if_neg hgood, if_neg h2]
        exact List.mem_cons_self _ _
    · obtain ⟨p, hp, hn⟩ := ih q hq hgood
      rcases List.mem_append.mp hp with hp | hp
      · exact ⟨p, List.mem_append_left _ hp, hn⟩
      · exact ⟨p, List.mem_append_right _ (hsup _ hp), hn⟩

/-- Both document builders store exactly the name they are given. -/
lemma cleanPlayer13_name (r : PlayerRow) (n : String) : (cleanPlayer13 r n).name = n := rfl

/-- The simple builder stores exactly the name it is given. -/
lemma cleanPlayerSimple_name (r : PlayerRow) (n : String) :
    (cleanPlayerSimple r n).name = n := rfl

/-- Record-eta helper: updating `players` with itself is the identity. -/
lemma DB_players_eta (db : DB) : { db with players := db.players } = db := rfl

/-! ## C5 — player-name resolution -/

/-- Two rows naming the same player in different letter case. -/
def rowJaneUpper : PlayerRow := { name457 := .str "Jane Doe", gamesPlayed := 10, gamesWon := 7 }

/-- Lower-case variant of `rowJaneUpper`. -/
def rowJaneLower : PlayerRow := { name457 := .str "jane doe", gamesPlayed := 10, gamesWon := 7 }

/-- C5 counterexample: the lookup `findOne {name}` is case-sensitive, so two
rows whose names differ only in letter case create **two** Player entities
(the claim requires exactly one). -/
theorem playerNameResolutionCounterexample :
    (importPlayers13 [rowJaneUpper, rowJaneLower] emptyDB).players.map Player.name =
      ["Jane Doe", "jane doe"] := by
  decide

/-- C5 amended: player resolution matches full names **case-sensitively**
(exact string equality) against the players stored before the batch,
storing the original casing: a row whose exact name is already stored
creates nothing (it resolves to the existing entity), a row with a new
usable name creates one document carrying exactly that name, and names
differing in case are distinct keys (each creates its own entity, as the
counterexample shows). -/
theorem playerNameResolutionAmended :
    (∀ (db : DB) (r : PlayerRow),
      (∃ p ∈ db.players, p.name = fullNameOfRow r) →
      importPlayers13 [r] db = db) ∧
    (∀ (db : DB) (r : PlayerRow),
      ¬ badName (fullNameOfRow r) →
      (∀ p ∈ db.players, p.name ≠ fullNameOfRow r) →
      (importPlayers13 [r] db).players =
        db.players ++ [cleanPlayer13 r (fullNameOfRow r)]) ∧
    (∀ (r : PlayerRow) (n : String), (cleanPlayer13 r n).name = n) := by
  refine ⟨?_, ?_, fun r n => rfl⟩
  · intro db r hex
    obtain ⟨p, hp, hn⟩ := hex
    have hnil : collectNewPlayers cleanPlayer13 db.players [r] = [] :=
      collectNewPlayers_eq_nil fun q hq _ => by
        rcases List.mem_singleton.mp hq with rfl
        exact ⟨p, hp, hn⟩
    unfold importPlayers13
    rw [hnil, List.append_nil]
  · intro db r hgood hnew
    have hany : (db.players.any fun p => p.name == fullNameOfRow r) = false := by
      rw [List.any_eq_false]
      intro p hp
      simp [hnew p hp]
    unfold importPlayers13 collectNewPlayers
    rw [if_neg hgood, hany]
    rfl

/-- Witness for C5's amended claim: re-importing a row for the stored
`Jane Doe` is a no-op, and a fresh name is appended with its casing. -/
theorem playerNameResolutionAmendedWitness :
    importPlayers13 [rowJaneUpper] dbJane = dbJane ∧
    (importPlayers13 [rowJaneLower] dbJane).players =
      dbJane.players ++ [cleanPlayer13 rowJaneLower "jane doe"] :=
  ⟨playerNameResolutionAmended.1 dbJane rowJaneUpper
      ⟨pJane, List.mem_singleton.mpr rfl, by decide⟩,
    playerNameResolutionAmended.2.1 dbJane rowJaneLower (by decide)
      (by intro p hp
          rcases List.mem_singleton.mp hp with rfl
          decide)⟩

/-! ## C9 — Player-document clamping in the older variant -/

/-- A source row `{"457 Unique Players": "Jane Doe", "Games Won": "-5",
"Games Played": "10"}`: `parseInt("-5") || 0` is `-5`, which the clamps do
not repair. -/
def rowNegativeWon : PlayerRow :=
  { name457 := .str "Jane Doe", gamesPlayed := 10, gamesWon := -5 }

/-- C9 counterexample: the document inserted for `rowNegativeWon` stores
`winningPercentage = -5/10 < 0`, violating the `[0,1]` invariant the claim
asserts for every inserted document. -/
theorem playerClampCounterexample :
    (importPlayers13 [rowNegativeWon] emptyDB).players.length = 1 ∧
    ((importPlayers13 [rowNegativeWon] emptyDB).players.getD 0
        default).winningPercentage < 0 := by
  constructor
  · decide
  · have h : ((importPlayers13 [rowNegativeWon] emptyDB).players.getD 0
        default).winningPercentage =
        ((min (-5 : Int) 10 : Int) : ℚ) / ((10 : Int) : ℚ) := rfl
    rw [h]
    rw [show min (-5 : Int) 10 = -5 from by decide]
    norm_num

/-- The invariants the claim asserts of an inserted Player document. -/
def playerInvariants (p : Player) : Prop :=
  p.gamesWon ≤ p.gamesPlayed ∧ 0 ≤ p.winningPercentage ∧ p.winningPercentage ≤ 1 ∧
    (0 < p.gamesPlayed → p.winningPercentage = (p.gamesWon : ℚ) / (p.gamesPlayed : ℚ)) ∧
    (0 < p.bestResult → 0 < p.avgFinish → p.bestResult ≤ p.avgFinish)

/-- The clamps establish the invariants for any row whose parsed `gamesWon`
is nonnegative. -/
lemma cleanPlayer13_invariants (r : PlayerRow) (n : String)
    (hw : 0 ≤ r.gamesWon) : playerInvariants (cleanPlayer13 r n) := by
  unfold playerInvariants cleanPlayer13
  refine ⟨min_le_right _ _, ?_, ?_, ?_, ?_⟩
  · by_cases hp : 0 < r.gamesPlayed
    · simp only [if_pos hp]
      apply div_nonneg
      · exact_mod_cast le_min hw hp.le
      · exact_mod_cast hp.le
    · simp only [if_neg hp]
      exact le_max_left _ _
  · by_cases hp : 0 < r.gamesPlayed
    · simp only [if_pos hp]
      rw [div_le_one (by exact_mod_cast hp)]
      exact_mod_cast min_le_right _ _
    · simp only [if_neg hp]
      exact max_le (by norm_num) (min_le_left _ _)
  · intro hp
    simp only [if_pos hp]
  · intro hb ha
    by_cases hg : 0 < r.avgFinish ∧ 0 < r.bestResult
    · simp only [if_pos hg] at hb ⊢
      exact min_le_right _ _
    · simp only [if_neg hg] at hb ⊢
      push_neg at hg
      have : ¬ (0 : ℚ) < (r.bestResult : ℚ) := by
        intro hc
        exact absurd (hg ha) (not_le.mpr (by exact_mod_cast hc))
      exact absurd hb this

/-- C9 amended: provided the parsed `gamesWon` of each row is nonnegative
(negative counter strings such as `"-5"` escape the clamps, as the
counterexample shows), every document the older variant inserts satisfies
the Player invariants: `gamesWon ≤ gamesPlayed` always, `winningPercentage
∈ [0,1]` and equal to `gamesWon / gamesPlayed` whenever `gamesPlayed > 0`,
and `bestResult ≤ avgFinish` whenever both are positive. -/
theorem playerClampAmended :
    ∀ (db : DB) (rows : List PlayerRow),
      (∀ r ∈ rows, 0 ≤ r.gamesWon) →
      ∀ p ∈ (importPlayers13 rows db).players,
        p ∈ db.players ∨ playerInvariants p := by
  intro db rows hw p hp
  unfold importPlayers13 at hp
  rcases List.mem_append.mp hp with hold | hnew
  · exact Or.inl hold
  · obtain ⟨r, hr, he⟩ := collectNewPlayers_mem hnew
    exact Or.inr (he ▸ cleanPlayer13_invariants r _ (hw r hr))

/-- Witness for C9's amended claim at a concrete run. -/
theorem playerClampAmendedWitness :
    cleanPlayer13 rowJaneUpper "Jane Doe" ∈ emptyDB.players ∨
      playerInvariants (cleanPlayer13 rowJaneUpper "Jane Doe") :=
  playerClampAmended emptyDB [rowJaneUpper]
    (by intro r hr
        rcases List.mem_singleton.mp hr with rfl
        decide)
    (cleanPlayer13 rowJaneUpper "Jane Doe")
    (List.mem_singleton.mpr rfl)

/-! ## C7 — bulk insert with per-record fallback -/

/-- Success and failure counts of the fallback loop always account for the
whole batch. -/
lemma fallbackLoop_counts {α : Type} (outcome : α → Except MongoErr Unit)
    (logLine : α → MongoErr → String) (records : List α) :
    (fallbackLoop outcome logLine records).1 +
      (fallbackLoop outcome logLine records).2.1 = records.length := by
  induction records with
  | nil => rfl
  | cons r rs ih =>
    cases ho : outcome r <;> simp only [fallbackLoop, ho, List.length_cons] <;> omega

/-- Every failing record of the fallback loop contributes its log line. -/
lemma fallbackLoop_logs {α : Type} (outcome : α → Except MongoErr Unit)
    (logLine : α → MongoErr → String) (records : List α) (r : α) (e : MongoErr)
    (hr : r ∈ records) (he : outcome r = .error e) :
    logLine r e ∈ (fallbackLoop outcome logLine records).2.2 := by
  induction records with
  | nil => cases hr
  | cons q qs ih =>
    rcases List.mem_cons.mp hr with heq | hmem
    · subst heq
      unfold fallbackLoop
      rw [he]
      exact List.mem_cons_self _ _
    · unfold fallbackLoop
      cases outcome q
      · exact List.mem_cons_of_mem _ (ih hmem)
      · exact ih hmem

/-- A bulk insert that succeeds inserted the whole batch. -/
lemma bulkOutcome_ok_length {α : Type} (outcome : α → Except MongoErr Unit)
    (records : List α) (n : Nat) (h : bulkOutcome outcome records = .ok n) :
    n = records.length := by
  induction records generalizing n with
  | nil =>
    unfold bulkOutcome at h
    injection h with h
    simp [← h]
  | cons r rs ih =>
    unfold bulkOutcome at h
    cases ho : outcome r <;> rw [ho] at h
    · cases h
    · cases hb : bulkOutcome outcome rs <;> rw [hb] at h
      · cases h
      · injection h with h
        subst h
        simp [ih _ hb]

/-- A team result whose identifying key (its resolved player) is
`"KeyPlayer"`. -/
def resKeyed : TeamResult :=
  { tournamentBod := 202403, players := ["KeyPlayer"], division := "",
    seed := none,
    totalStats := { totalWon := 0, totalLost := 0, totalPlayed := 0,
                    winPercentage := 0, finalRank := 0, bodFinish := 0,
                    home := false } }

/-- A per-record outcome that always fails with a validation error. -/
def outcomeAlwaysFail : TeamResult → Except MongoErr Unit :=
  fun _ => .error { code := 121, message := "validation failed" }

/-- C7 counterexample: the simple script's result writer does fall back,
but its per-record failure log (`Failed individual insert: <message>`)
carries only the message — the identifying key of the failed record appears
in no log line, so the claim that each failure is logged with key **and**
message is false for this writer. -/
theorem writerFallbackCounterexample :
    writeResultsBatchSimple outcomeAlwaysFail [resKeyed] =
      (0, 1, ["    Failed individual insert: validation failed"]) ∧
    ((writeResultsBatchSimple outcomeAlwaysFail [resKeyed]).2.2.any fun l =>
      jsIncludes l "KeyPlayer") = false := by
  constructor
  · rfl
  · decide

/-- C7 amended: every writer attempts the bulk insert first and falls back
to per-record inserts on a bulk validation failure, the fallback accounts
for the whole batch and never rethrows a per-record failure (the older
variant's player writer returns an error only for a **bulk** failure whose
code is not 121); each per-record failure is logged — with both the
identifying key and the message in the older variant's player writer,
but (per the counterexample) not in the simple script's result writer. -/
theorem writerFallbackAmended :
    (∀ (outcome : Player → Except MongoErr Unit) (records : List Player)
        (e : MongoErr),
      bulkOutcome outcome records = .error e → e.code = 121 →
      writePlayersBatch13 outcome records =
        .ok (fallbackLoop outcome logPlayer13 records) ∧
      (fallbackLoop outcome logPlayer13 records).1 +
        (fallbackLoop outcome logPlayer13 records).2.1 = records.length ∧
      (∀ r ∈ records, ∀ err, outcome r = .error err →
        ("Failed to insert player: " ++ r.name ++ " - " ++ err.message) ∈
          (fallbackLoop outcome logPlayer13 records).2.2)) ∧
    (∀ (outcome : TeamResult → Except MongoErr Unit) (records : List TeamResult),
      (writeResultsBatchSimple outcome records).1 +
        (writeResultsBatchSimple outcome records).2.1 = records.length) ∧
    (∀ (outcome : Player → Except MongoErr Unit) (records : List Player)
        (e : MongoErr),
      writePlayersBatch13 outcome records = .error e → e.code ≠ 121) := by
  refine ⟨?_, ?_, ?_⟩
  · intro outcome records e hb hc
    refine ⟨?_, fallbackLoop_counts _ _ _, ?_⟩
    · simp only [writePlayersBatch13, hb]
      rw [if_pos hc]
    · intro r hr err herr
      exact fallbackLoop_logs outcome logPlayer13 records r err hr herr
  · intro outcome records
    cases hb : bulkOutcome outcome records with
    | ok n =>
      simp only [writeResultsBatchSimple, hb]
      simp [bulkOutcome_ok_length outcome records n hb]
    | error e =>
      simp only [writeResultsBatchSimple, hb]
      exact fallbackLoop_counts _ _ _
  · intro outcome records e h
    cases hb : bulkOutcome outcome records with
    | ok n =>
      simp only [writePlayersBatch13, hb] at h
      cases h
    | error e2 =>
      simp only [writePlayersBatch13, hb] at h
      by_cases h121 : e2.code = 121
      · rw [if_pos h121] at h
        cases h
      · rw [if_neg h121] at h
        injection h with h
        subst h
        exact h121

/-- A per-record outcome over players that always fails with a validation
error. -/
def outcomePlayerFail : Player → Except MongoErr Unit :=
  fun _ => .error { code := 121, message := "doc failed validation" }

/-- Witness for C7's amended claim: on a code-121 bulk failure the older
variant's player writer returns the fallback summary (never an error), and
the failed record's key and message are in the log. -/
theorem writerFallbackAmendedWitness :
    writePlayersBatch13 outcomePlayerFail [pJane] =
      .ok (fallbackLoop outcomePlayerFail logPlayer13 [pJane]) ∧
    ("Failed to insert player: " ++ pJane.name ++ " - " ++ "doc failed validation") ∈
      (fallbackLoop outcomePlayerFail logPlayer13 [pJane]).2.2 := by
  have h := writerFallbackAmended.1 outcomePlayerFail [pJane]
    { code := 121, message := "doc failed validation" } rfl rfl
  exact ⟨h.1, h.2.2 pJane (List.mem_singleton.mpr rfl)
    { code := 121, message := "doc failed validation" } rfl⟩

/-! ## Phase frame lemmas (which collections each phase can touch) -/

/-- One champions row never touches the players collection. -/
lemma importChampionsStep_players (db : DB) (c : ChampRow) :
    (importChampionsStep db c).players = db.players := by
  unfold importChampionsStep
  split
  · rfl
  · split <;> rfl

/-- The champions phase never touches the players collection. -/
lemma importChampions_players (rows : List ChampRow) (db : DB) :
    (importChampions rows db).players = db.players := by
  induction rows generalizing db with
  | nil => rfl
  | cons c cs ih =>
    unfold importChampions at ih ⊢
    rw [List.foldl_cons, ih, importChampionsStep_players]

/-- The champions phase never touches the results collection. -/
lemma importChampionsStep_results (db : DB) (c : ChampRow) :
    (importChampionsStep db c).results = db.results := by
  unfold importChampionsStep
  split
  · rfl
  · split <;> rfl

/-- The All Scores phase never touches the players collection. -/
lemma importAllScores_players (rows : List ScoreRow) (db : DB) :
    (importAllScores rows db).players = db.players := rfl

/-- A simple-script tournament file never touches the players collection. -/
lemma importTournamentFileSimple_players (db : DB) (f : TFile) :
    (importTournamentFileSimple db f).players = db.players := by
  by_cases h : (List.filter isValidTeamRowSimple f.rows).length = 0 <;>
    simp [importTournamentFileSimple, h]

/-- Folding simple-script tournament files never touches the players
collection. -/
lemma foldTournamentFilesSimple_players (files : List TFile) (db : DB) :
    (files.foldl importTournamentFileSimple db).players = db.players := by
  induction files generalizing db with
  | nil => rfl
  | cons f fs ih =>
    rw [List.foldl_cons, ih, importTournamentFileSimple_players]

/-- What a marker-free run of the simple script does to the players
collection: exactly the append performed by its player phase, computed
against the pre-run players. -/
lemma simpleImport_players (input : SimpleInput) (db : DB) (h : db.marker = false) :
    (simpleImport input db).players =
      db.players ++ collectNewPlayers cleanPlayerSimple db.players input.playerRows := by
  unfold simpleImport
  rw [h]
  simp only [Bool.false_eq_true, if_false]
  rw [foldTournamentFilesSimple_players, importAllScores_players,
    importChampions_players]
  rfl

/-! ## C8 — drop/recreate frame effect of the simple script -/

/-- C8: every marker-free run of the simple script drops and recreates the
tournaments and tournamentresults collections (the clear step empties
exactly those two and leaves players untouched); consequently the final
state is independent of whatever tournaments and results were stored before
the run — previously stored tournament and result documents never survive —
while every previously stored player document does survive to the final
state. -/
theorem simpleImportFrame :
    (∀ db : DB,
      (clearTournamentCollections db).tournaments = [] ∧
      (clearTournamentCollections db).results = [] ∧
      (clearTournamentCollections db).players = db.players ∧
      (clearTournamentCollections db).marker = db.marker) ∧
    (∀ (input : SimpleInput) (ps : List Player) (ts ts' : List Tournament)
        (rs rs' : List TeamResult),
      simpleImport input { players := ps, tournaments := ts, results := rs, marker := false } =
        simpleImport input { players := ps, tournaments := ts', results := rs', marker := false }) ∧
    (∀ (input : SimpleInput) (db : DB) (p : Player),
      db.marker = false → p ∈ db.players → p ∈ (simpleImport input db).players) := by
  refine ⟨fun db => ⟨rfl, rfl, rfl, rfl⟩, ?_, ?_⟩
  · intro input ps ts ts' rs rs'
    rfl
  · intro input db p h hp
    rw [simpleImport_players input db h]
    exact List.mem_append_left _ hp

/-- Input consisting of the two example March files and no aggregate
rows. -/
def exampleInput : SimpleInput :=
  { playerRows := [rowJaneUpper], champRows := [], scoreRows := [],
    tournamentFiles := [fileMarch1] }

/-- Witness for C8: the stored `Jane Doe` survives a concrete marker-free
run. -/
theorem simpleImportFrameWitness :
    pJane ∈ (simpleImport exampleInput dbJane).players :=
  simpleImportFrame.2.2 exampleInput dbJane pJane rfl (List.mem_singleton.mpr rfl)

/-! ## C1 — idempotence of both pipelines -/

/-- A marker-guarded run is the identity when the marker is present. -/
lemma simpleImport_marker_skip (input : SimpleInput) (db : DB)
    (h : db.marker = true) : simpleImport input db = db := by
  simp [simpleImport, h]

/-- Every run of the simple script ends in a marker-set state. -/
lemma simpleImport_marker (input : SimpleInput) (db : DB) :
    (simpleImport input db).marker = true := by
  by_cases h : db.marker
  · rw [simpleImport_marker_skip input db h]
    exact h
  · simp [simpleImport, h]

/-- If a player pass was already folded into the stored players, running it
again collects nothing and is the identity. -/
lemma importPlayers13_idem (rows : List PlayerRow) (db : DB) (E : List Player)
    (h : db.players = E ++ collectNewPlayers cleanPlayer13 E rows) :
    importPlayers13 rows db = db := by
  have hnil : collectNewPlayers cleanPlayer13 db.players rows = [] := by
    apply collectNewPlayers_eq_nil
    intro r hr hgood
    obtain ⟨p, hp, hn⟩ :=
      collectNewPlayers_covers cleanPlayer13 cleanPlayer13_name E rows r hr hgood
    exact ⟨p, h ▸ hp, hn⟩
  unfold importPlayers13
  rw [hnil, List.append_nil]

/-- The older variant's tournament import never touches players. -/
lemma importTournamentFile13_players (db : DB) (f : TFile) :
    (importTournamentFile13 db f).players = db.players := by
  by_cases h1 : (db.tournaments.any fun t => t.bodNumber == fileBodNumber f.name) = true
  · simp [importTournamentFile13, h1]
  · by_cases h2 : (List.filter isValidTeamRow13 f.rows).length = 0 <;>
      simp [importTournamentFile13, h1, h2]

/-- Tournaments already stored survive an older-variant file import. -/
lemma importTournamentFile13_t_mono (db : DB) (f : TFile) (t : Tournament)
    (h : t ∈ db.tournaments) : t ∈ (importTournamentFile13 db f).tournaments := by
  by_cases h1 : (db.tournaments.any fun t => t.bodNumber == fileBodNumber f.name) = true
  · simp [importTournamentFile13, h1, h]
  · by_cases h2 : (List.filter isValidTeamRow13 f.rows).length = 0 <;>
      simp [importTournamentFile13, h1, h2, h]

/-- A file is settled for a list of stored tournaments when its BOD number
is taken or it has no valid rows; settled files import as no-ops. -/
def fileDone (ts : List Tournament) (f : TFile) : Prop :=
  (∃ t ∈ ts, t.bodNumber = fileBodNumber f.name) ∨
    List.filter isValidTeamRow13 f.rows = []

/-- Importing a settled file changes nothing. -/
lemma importTournamentFile13_of_done (db : DB) (f : TFile)
    (h : fileDone db.tournaments f) : importTournamentFile13 db f = db := by
  rcases h with ⟨t, ht, he⟩ | h
  · have hany : (db.tournaments.any fun t => t.bodNumber == fileBodNumber f.name) = true :=
      List.any_eq_true.mpr ⟨t, ht, by simp [he]⟩
    simp [importTournamentFile13, hany]
  · by_cases h1 : (db.tournaments.any fun t => t.bodNumber == fileBodNumber f.name) = true
    · simp [importTournamentFile13, h1]
    · simp [importTournamentFile13, h1, h]

/-- After importing a file it is settled: either it was skipped (number
taken), had no valid rows, or its tournament was just created. -/
lemma importTournamentFile13_done (db : DB) (f : TFile) :
    fileDone (importTournamentFile13 db f).tournaments f := by
  by_cases h1 : (db.tournaments.any fun t => t.bodNumber == fileBodNumber f.name) = true
  · rw [show importTournamentFile13 db f = db from by simp [importTournamentFile13, h1]]
    obtain ⟨t, ht, he⟩ := List.any_eq_true.mp h1
    exact Or.inl ⟨t, ht, by simpa using he⟩
  · by_cases h2 : List.filter isValidTeamRow13 f.rows = []
    · exact Or.inr h2
    · left
      refine ⟨mkTournament13 f, ?_, rfl⟩
      have hlen : ¬(List.filter isValidTeamRow13 f.rows).length = 0 := by
        simpa [List.length_eq_zero] using h2
      simp [importTournamentFile13, h1, hlen]

/-- Settledness is preserved by further file imports. -/
lemma fileDone_mono (db : DB) (f g : TFile) (h : fileDone db.tournaments f) :
    fileDone (importTournamentFile13 db g).tournaments f := by
  rcases h with ⟨t, ht, he⟩ | h
  · exact Or.inl ⟨t, importTournamentFile13_t_mono db g t ht, he⟩
  · exact Or.inr h

/-- Settledness is preserved by folding any further files. -/
lemma fold13_preserves_done (files : List TFile) (db : DB) (f : TFile)
    (h : fileDone db.tournaments f) :
    fileDone (files.foldl importTournamentFile13 db).tournaments f := by
  induction files generalizing db with
  | nil => exact h
  | cons g gs ih =>
    rw [List.foldl_cons]
    exact ih _ (fileDone_mono db f g h)

/-- After one pass over a file list, every file of the list is settled. -/
lemma fold13_done_all (files : List TFile) (db : DB) :
    ∀ f ∈ files, fileDone (files.foldl importTournamentFile13 db).tournaments f := by
  induction files generalizing db with
  | nil => intro f hf; cases hf
  | cons g gs ih =>
    intro f hf
    rw [List.foldl_cons]
    rcases List.mem_cons.mp hf with heq | hmem
    · subst heq
      exact fold13_preserves_done gs _ f (importTournamentFile13_done db f)
    · exact ih _ f hmem

/-- Folding a list of settled files is the identity. -/
lemma fold13_fixpoint (files : List TFile) (db : DB)
    (h : ∀ f ∈ files, fileDone db.tournaments f) :
    files.foldl importTournamentFile13 db = db := by
  induction files with
  | nil => rfl
  | cons g gs ih =>
    rw [List.foldl_cons, importTournamentFile13_of_done db g (h g (List.mem_cons_self _ _))]
    exact ih fun f hf => h f (List.mem_cons_of_mem _ hf)

/-- The older variant's tournament phase never touches players. -/
lemma importTournaments13_players (files : List TFile) (db : DB) :
    (importTournaments13 files db).players = db.players := by
  unfold importTournaments13
  generalize (files.filter fun f => isTournamentFileName f.name) = fs
  induction fs generalizing db with
  | nil => rfl
  | cons f fs ih =>
    rw [List.foldl_cons, ih, importTournamentFile13_players]

/-- Setting an already-set marker is the identity. -/
lemma DB_marker_set_self (db : DB) (h : db.marker = true) :
    { db with marker := true } = db := by
  cases db
  subst h
  rfl

/-- C1: the import pipeline is idempotent.  For the deployed simple script:
a marker-set invocation returns the state unchanged (creating nothing), and
since every run ends marker-set, a second run against unchanged input
leaves the entire stored state — hence every entity count — unchanged, with
zero new creates.  The older variant (which has no marker check of its own)
is idempotent through its per-entity existence checks: a second run
creates no player (each name is already stored) and no tournament or
result (each file's BOD number is already taken or it has no valid rows),
leaving the state unchanged. -/
theorem importPipelineIdempotent :
    (∀ (input : SimpleInput) (db : DB), db.marker = true →
      simpleImport input db = db) ∧
    (∀ (input : SimpleInput) (db : DB),
      simpleImport input (simpleImport input db) = simpleImport input db) ∧
    (∀ (input : Import13Input) (db : DB),
      importData13 input (importData13 input db) = importData13 input db) := by
  refine ⟨simpleImport_marker_skip, ?_, ?_⟩
  · intro input db
    exact simpleImport_marker_skip input _ (simpleImport_marker input db)
  · intro input db
    have hstep : ∀ X : DB, importData13 input X =
        { importTournaments13 input.tournamentFiles (importPlayers13 input.playerRows X) with
          marker := true } := fun X => rfl
    have hA_players : (importData13 input db).players =
        db.players ++ collectNewPlayers cleanPlayer13 db.players input.playerRows := by
      rw [hstep db]
      show (importTournaments13 input.tournamentFiles
        (importPlayers13 input.playerRows db)).players = _
      rw [importTournaments13_players]
      rfl
    have hplayers_fix :
        importPlayers13 input.playerRows (importData13 input db) = importData13 input db :=
      importPlayers13_idem input.playerRows _ db.players hA_players
    have hdone : ∀ f ∈ input.tournamentFiles.filter (fun f => isTournamentFileName f.name),
        fileDone (importData13 input db).tournaments f := by
      intro f hf
      have h1 := fold13_done_all
        (input.tournamentFiles.filter fun f => isTournamentFileName f.name)
        (importPlayers13 input.playerRows db) f hf
      exact h1
    rw [hstep (importData13 input db), hplayers_fix]
    have hfix2 : importTournaments13 input.tournamentFiles (importData13 input db) =
        importData13 input db := by
      unfold importTournaments13
      exact fold13_fixpoint _ _ hdone
    rw [hfix2]
    exact DB_marker_set_self _ rfl

/-- Input for the older variant built from the same example files. -/
def exampleInput13 : Import13Input :=
  { playerRows := [rowJaneUpper], tournamentFiles := [fileMarch1] }

/-- A database whose completion marker is already set. -/
def dbMarked : DB := { players := [], tournaments := [], results := [], marker := true }

/-- Witness for C1: a marker-set invocation of the simple script is the
identity, and a second older-variant run on a concrete state changes
nothing. -/
theorem importPipelineIdempotentWitness :
    simpleImport exampleInput dbMarked = dbMarked ∧
    importData13 exampleInput13 (importData13 exampleInput13 emptyDB) =
      importData13 exampleInput13 emptyDB :=
  ⟨importPipelineIdempotent.1 exampleInput dbMarked rfl,
    importPipelineIdempotent.2.2 exampleInput13 emptyDB⟩

end BOD
